import Mathlib

/-
Verification development for the NPY time-series labeling tool.

Shallow embedding of the core state and operations:
  * `Engine` embeds `core/annotation_engine.py` (class AnnotationEngine);
  * `Viewport` embeds the windowed-viewport math of `ui/plot_widget.py`
    (center_data_in_window / zoom_in / zoom_out);
  * `SelMachine`/`selStep` embed the hover / dwell-timer selection machine:
    the global armed id of `ui/main_window.py` (on_mask_hovered,
    on_mask_selected, clear_mask_selection) together with each plot
    widget's own `clear_selection_timer` and `hover_in_blank_area` flag
    (`ui/plot_widget.py`: check_mask_hover, check_blank_area_hover,
    on_clear_selection_timeout) — one timer per widget, as in the source;
  * the save-path functions embed `core/data_manager.py`
    (_check_files_exist, _save_merged_data, _save_separate_data);
  * `MW` embeds the cross-view mapping state and handlers of
    `ui/main_window.py` (on_range_confirmed, sync_annotation_to_all_plots,
    sync_all_annotations_to_plots, on_annotation_deleted, on_group_changed,
    on_mask_dragged).

Machine integers are modelled as `Int` (Python ints are unbounded), list
sorting as a stable sort by the same key, Python dicts (insertion ordered)
as association lists. Purely visual effects (colors, pens, text items, status
messages, prints) are not part of the state. The float products
`int(window_size * 0.7)` and `int(window_size * 1.4)` are modelled bit-for-bit
as binary64 arithmetic: the constants 0.7 and 1.4 are the doubles
3152519739159347/2^52 and 6305039478318694/2^52, the product is rounded to
the nearest double (ties to even) and then truncated, exactly as CPython
computes it for any window size below 2^53 (int-to-double conversion is
exact there; sizes in the tool stay in the spin-box range [100, 10000]).
-/

/-- One committed interval of the Annotation Store: the dict
`{'id': ..., 'start': ..., 'end': ...}` of `annotation_engine.py`
(the constant `is_temp = False` flag of committed entries is dropped;
the Python `end` key is the field `stop`). -/
structure Ann where
  id : Nat
  start : Int
  stop : Int
  deriving Repr, DecidableEq

/-- State of `AnnotationEngine`: the list `self.annotations`, the counter
`self.next_id`, and the draft `self.temp_annotation` (kept as its
(start, end) pair; its `is_temp` flag is constant True). -/
structure Engine where
  annotations : List Ann
  next_id : Nat
  temp_ann : Option (Int × Int)
  deriving Repr, DecidableEq

/-- Comparison relation of `_sort_annotations`: `key=lambda x: x['start']`. -/
def annLE (a b : Ann) : Prop := a.start ≤ b.start

instance : DecidableRel annLE := fun a b => Int.decLe a.start b.start

instance : IsTotal Ann annLE := ⟨fun a b => Int.le_total a.start b.start⟩

instance : IsTrans Ann annLE := ⟨fun _ _ _ hab hbc => le_trans hab hbc⟩

/-- `_sort_annotations`: Python `list.sort` is a stable sort by `start`.
Insertion sort with the non-strict key order is stable (an element is
inserted before the equal-keyed elements of the already-sorted suffix,
which all came later in the original list), so it computes the same list
as CPython's stable sort. -/
def sortAnns (l : List Ann) : List Ann := l.insertionSort annLE

/-- The loop of `_renumber_annotations`: position `i` (0-based) gets id
`i + 1`; `renumberFrom k` numbers the remaining suffix from `k`. -/
def renumberFrom (k : Nat) : List Ann → List Ann
  | [] => []
  | a :: rest => { a with id := k } :: renumberFrom (k + 1) rest

/-- `AnnotationEngine._renumber_annotations` on the list (ids become 1..N). -/
def renumberList (l : List Ann) : List Ann := renumberFrom 1 l

/-- `AnnotationEngine.add_annotation(start, end, min_width)`. Normalizes the
pair, rejects widths below `min_width`, otherwise appends `{next_id, s, t}`,
sorts, renumbers and sets `next_id = N + 1`. Python returns
`annotation['id']` of the appended dict after renumbering, i.e. the
1-based position of the appended element in the sorted list; the appended
element is the unique one carrying the old `next_id` before renumbering. -/
def Engine.add (e : Engine) (start stop min_width : Int) : Option Nat × Engine :=
  let p := if stop < start then (stop, start) else (start, stop)
  if p.2 - p.1 < min_width then (none, e)
  else
    let newAnn : Ann := ⟨e.next_id, p.1, p.2⟩
    let sorted := sortAnns (e.annotations ++ [newAnn])
    let ret := sorted.findIdx (fun a => a.id == e.next_id) + 1
    (some ret,
      { e with annotations := renumberList sorted, next_id := sorted.length + 1 })

/-- The scan of `update_annotation_position`: update the first annotation
whose id matches, report whether one was found. -/
def updateFirst (aid : Nat) (s t : Int) : List Ann → Bool × List Ann
  | [] => (false, [])
  | a :: rest =>
    if a.id = aid then (true, { a with start := s, stop := t } :: rest)
    else
      let r := updateFirst aid s t rest
      (r.1, a :: r.2)

/-- `AnnotationEngine.update_annotation_position(annotation_id, start, end)`:
normalizes the pair, replaces the matching entry in place, re-sorts by
start, does not renumber; returns False and leaves the list unchanged when
the id is unknown. -/
def Engine.updatePosition (e : Engine) (aid : Nat) (start stop : Int) : Bool × Engine :=
  let p := if stop < start then (stop, start) else (start, stop)
  let r := updateFirst aid p.1 p.2 e.annotations
  if r.1 then (true, { e with annotations := sortAnns r.2 })
  else (false, e)

/-- The scan of `remove_annotation`: delete the first annotation whose id
matches, report whether one was found. -/
def removeFirst (aid : Nat) : List Ann → Bool × List Ann
  | [] => (false, [])
  | a :: rest =>
    if a.id = aid then (true, rest)
    else
      let r := removeFirst aid rest
      (r.1, a :: r.2)

/-- `AnnotationEngine.remove_annotation(annotation_id)`: deletes the match,
renumbers survivors (which also sets `next_id = N + 1`). -/
def Engine.removeAnn (e : Engine) (aid : Nat) : Bool × Engine :=
  let r := removeFirst aid e.annotations
  if r.1 then
    (true, { e with annotations := renumberList r.2, next_id := r.2.length + 1 })
  else (false, e)

/-- `AnnotationEngine.finish_annotation(min_width)`: with no draft, returns
None; with a draft narrower than `min_width`, discards the draft and
returns None; otherwise commits the draft exactly as `add_annotation`
does and clears it. The returned record carries the committed (renumbered)
id and interval. -/
def Engine.finish (e : Engine) (min_width : Int) : Option Ann × Engine :=
  match e.temp_ann with
  | none => (none, e)
  | some (s, t) =>
    if t - s < min_width then (none, { e with temp_ann := none })
    else
      let newAnn : Ann := ⟨e.next_id, s, t⟩
      let sorted := sortAnns (e.annotations ++ [newAnn])
      let ret := sorted.findIdx (fun a => a.id == e.next_id) + 1
      (some ⟨ret, s, t⟩,
        { annotations := renumberList sorted, next_id := sorted.length + 1,
          temp_ann := none })

/-- `AnnotationEngine.clear_annotations()`: empty list, draft dropped,
counter reset to 1. -/
def Engine.clearAnns (_e : Engine) : Engine := ⟨[], 1, none⟩

/-- Ids of a store are dense: the id column reads 1, 2, ..., N in order. -/
def denseIds (l : List Ann) : Prop := l.map (·.id) = List.range' 1 l.length

/-- The store is ordered by interval start. -/
def sortedByStart (l : List Ann) : Prop := l.Pairwise (fun a b => a.start ≤ b.start)

/-- Structural validity of the store as §7 of the spec states it: the id
set is exactly {1..N} and every interval satisfies start < end. -/
def storeValid (e : Engine) : Prop :=
  (e.annotations.map (·.id)).Perm (List.range' 1 e.annotations.length) ∧
  ∀ a ∈ e.annotations, a.start < a.stop

/-- The (start, end) payload of an annotation, for multiset round-trips. -/
def pairOf (a : Ann) : Int × Int := (a.start, a.stop)

/- ----------------------------------------------------------------- -/
/- Viewport navigation (ui/plot_widget.py).                           -/
/- ----------------------------------------------------------------- -/

/-- Per-view window state of `TimeSeriesPlotWidget`: `len(self.data)`,
`self.window_size`, `self.window_start`. -/
structure Viewport where
  data_length : Nat
  window_size : Int
  window_start : Int
  deriving Repr, DecidableEq

/-- `center_data_in_window`: no-op on empty data; start 0 when the data
fits the window; otherwise `(data_length - window_size) // 2` (nonnegative
in that branch), guarded by `max 0` as in the source. -/
def centerDataInWindow (v : Viewport) : Viewport :=
  if v.data_length = 0 then v
  else if (v.data_length : Int) ≤ v.window_size then { v with window_start := 0 }
  else { v with window_start := max 0 (((v.data_length : Int) - v.window_size) / 2) }

/-- Number of bits of `n` in excess of 53: the `k` with
`2^53 ≤ n / 2^(k-1)` and `n / 2^k < 2^53` (0 when `n < 2^53`). The first
argument is recursion fuel; `excessBits 128 n` is exact for every
`n < 2^(53+128)`, far beyond the model's domain. -/
def excessBits : Nat → Nat → Nat
  | 0, _ => 0
  | c + 1, n => if 2 ^ 53 ≤ n then excessBits c (n / 2) + 1 else 0

/-- Round the rational `num / 2^k` to the nearest integer, ties to even —
the binary64 rounding mode. -/
def rne (num k : Nat) : Nat :=
  let q := num / 2 ^ k
  let r := num % 2 ^ k
  if 2 * r < 2 ^ k then q
  else if 2 ^ k < 2 * r then q + 1
  else if q % 2 = 0 then q else q + 1

/-- `int(n * c)` in CPython for a nonnegative int `n` and a double
constant `c = m / 2^52`: the exact product `n*m / 2^52` is rounded to the
nearest representable double (53-bit significand, ties to even) and then
truncated toward zero. Faithful for every `n < 2^53`, where the
int-to-double conversion of `n` is exact — this covers all reachable
window sizes (the spin box allows [100, 10000]). -/
def floorFloatMul (n m : Nat) : Nat :=
  let v := n * m
  let k := excessBits 128 v
  if k = 0 then v / 2 ^ 52
  else rne v k * 2 ^ k / 2 ^ 52

/-- CPython's `int(ws * 0.7)`: the double 0.7 is 3152519739159347/2^52.
(For e.g. ws = 180 this gives 125, one below the exact floor 126.) -/
def pyIntMul07 (ws : Int) : Int := Int.ofNat (floorFloatMul ws.toNat 3152519739159347)

/-- CPython's `int(ws * 1.4)`: the double 1.4 is 6305039478318694/2^52.
(For e.g. ws = 700 this gives 979, one below the exact floor 980.) -/
def pyIntMul14 (ws : Int) : Int := Int.ofNat (floorFloatMul ws.toNat 6305039478318694)

/-- `zoom_in`: `new_size = max(100, int(window_size * 0.7))` with the
float product modelled bit-for-bit by `pyIntMul07`; when the size
changes, the start is advanced by half the size difference, then clamped
to `[0, data_length - new_size]` exactly as the source does. -/
def zoomIn (v : Viewport) : Viewport :=
  if v.data_length = 0 then v
  else
    let new_size := max 100 (pyIntMul07 v.window_size)
    if new_size = v.window_size then v
    else
      let size_diff := v.window_size - new_size
      let ws1 := max 0 (v.window_start + size_diff / 2)
      let max_start := max 0 ((v.data_length : Int) - new_size)
      { v with window_size := new_size, window_start := min ws1 max_start }

/-- `zoom_out`: `new_size = min(data_length, int(window_size * 1.4))`
with the float product modelled bit-for-bit by `pyIntMul14`; when the
size changes, the start is pulled back by half the size difference, then
clamped to `[0, data_length - new_size]` exactly as the source does. -/
def zoomOut (v : Viewport) : Viewport :=
  if v.data_length = 0 then v
  else
    let new_size := min (v.data_length : Int) (pyIntMul14 v.window_size)
    if new_size = v.window_size then v
    else
      let size_diff := new_size - v.window_size
      let ws1 := max 0 (v.window_start - size_diff / 2)
      let max_start := max 0 ((v.data_length : Int) - new_size)
      { v with window_size := new_size, window_start := min ws1 max_start }

/- ----------------------------------------------------------------- -/
/- Selection / dwell-timer state machine.                             -/
/- ----------------------------------------------------------------- -/

/-- Per-widget dwell state: each `TimeSeriesPlotWidget` owns its own
`clear_selection_timer` (whether it is running and the delay it was
started with) and its own `hover_in_blank_area` flag; `vname` is the
widget's identity. -/
structure ViewTimer where
  vname : Nat
  timer_active : Bool
  timer_delay : Nat
  hover_in_blank_area : Bool
  deriving Repr, DecidableEq

/-- Joint selection state: `MainWindow.selected_mask_id` (the single
system-wide armed global mask id) together with the per-widget dwell
state of every plot widget — one timer per widget, as in the source;
no handler ever touches another widget's timer. -/
structure SelMachine where
  selected_mask_id : Option Nat
  viewStates : List ViewTimer
  deriving Repr, DecidableEq

/-- Discrete input events of the selection machine, each tagged with the
widget `w` whose mouse area (or timer) produced it. `moveOverMask w g` is
a mouse move inside widget `w` over a mask resolving to global id `g`
(`on_mouse_moved` with `check_mask_hover` returning True);
`moveOverEmpty w` is a mouse move over blank area of widget `w`;
`clickMask w g` is a left click in `w` inside that mask
(`select_mask` → `on_mask_selected`); `timerFire w` is the timeout of
widget `w`'s own `clear_selection_timer`. -/
inductive SelEvent where
  | moveOverMask (w g : Nat)
  | moveOverEmpty (w : Nat)
  | clickMask (w g : Nat)
  | timerFire (w : Nat)
  deriving Repr, DecidableEq

/-- Apply `f` to widget `w`'s dwell state, leaving every other widget's
state — in particular its timer — untouched. -/
def updViewTimer (l : List ViewTimer) (w : Nat) (f : ViewTimer → ViewTimer) : List ViewTimer :=
  l.map (fun vt => if vt.vname = w then f vt else vt)

/-- One step of the machine.

* `moveOverMask w g`: widget `w`'s `check_mask_hover` selects `g` through
  `on_mask_hovered`/`on_mask_selected` (a no-op when `g` is already the
  armed id), then `check_blank_area_hover(x, True)` stops `w`'s own timer
  (`self.clear_selection_timer.stop()`) and clears `w`'s blank-area flag.
  Timers pending in other widgets are NOT cancelled — no code path
  reaches them.
* `moveOverEmpty w`: `w`'s `check_blank_area_hover(x, False)` starts `w`'s
  timer with delay 1000 and sets `w`'s blank-area flag, but only when
  that flag was clear and something is armed.
* `clickMask w g`: `on_mask_selected` arms `g` (after clearing the
  previous selection); no timer is touched.
* `timerFire w`: a stopped timer never fires, so the step is the identity
  unless `w`'s timer is active; a firing timer runs `w`'s
  `on_clear_selection_timeout`, which calls the main window's
  `clear_mask_selection` (disarms globally) and clears `w`'s blank-area
  flag. The handler does not stop the timer. -/
def selStep (s : SelMachine) : SelEvent → SelMachine
  | SelEvent.moveOverMask w g =>
    let s1 := if s.selected_mask_id = some g then s
              else { s with selected_mask_id := some g }
    let f1 := fun vt =>
      { vt with timer_active := false, hover_in_blank_area := false }
    { s1 with viewStates := updViewTimer s1.viewStates w f1 }
  | SelEvent.moveOverEmpty w =>
    match s.viewStates.find? (fun vt => vt.vname == w) with
    | some vt =>
      if ¬vt.hover_in_blank_area ∧ s.selected_mask_id ≠ none then
        let f1 := fun vt1 =>
          { vt1 with timer_active := true, timer_delay := 1000, hover_in_blank_area := true }
        { s with viewStates := updViewTimer s.viewStates w f1 }
      else s
    | none => s
  | SelEvent.clickMask _w g => { s with selected_mask_id := some g }
  | SelEvent.timerFire w =>
    match s.viewStates.find? (fun vt => vt.vname == w) with
    | some vt =>
      if vt.timer_active then
        let f1 := fun vt1 => { vt1 with hover_in_blank_area := false }
        { s with
          selected_mask_id := none
          viewStates := updViewTimer s.viewStates w f1 }
      else s
    | none => s

/- ----------------------------------------------------------------- -/
/- Save paths (core/data_manager.py).                                 -/
/- ----------------------------------------------------------------- -/

/-- The three artifact names `_check_files_exist` probes and both save
modes write. -/
def artifactNames : List String := ["data.npy", "data_label.npy", "data_timestamp.npy"]

/-- The filesystem as the save code observes it: which file exists in
which directory. -/
structure Fs where
  hasArtifact : String → String → Bool

/-- Observable outcome of a save call: the returned bool, the (directory,
file) pairs written with `np.save`, and the directories for which
`file_exists_confirm` was emitted. -/
structure SaveOutcome where
  ok : Bool
  writes : List (String × String)
  confirms : List String
  deriving Repr, DecidableEq

/-- `DataManager._check_files_exist(save_dir)`: with `skip_file_check` set
it reports no conflict; otherwise any existing artifact emits
`file_exists_confirm` for the directory and reports a conflict. -/
def checkFilesExist (skip_file_check : Bool) (fs : Fs) (dir : String) : Bool × List String :=
  if skip_file_check then (true, [])
  else if (artifactNames.filter (fun f => fs.hasArtifact dir f)).isEmpty then (true, [])
  else (false, [dir])

/-- Post-skip length of one loaded array in `_save_merged_data`
(`arr[skip_points:]` when `skip_points < len(arr)`, else the empty
array). The save-dialog skip count is a nonnegative spin-box value,
modelled as `Nat`. -/
def processedLen (skip : Nat) (n : Nat) : Nat :=
  if skip < n then n - skip else 0

/-- `max_length` of `_save_merged_data`: maximum post-skip length over the
loaded arrays (empty arrays contribute nothing, as `max` with 0). -/
def maxLength (skip : Nat) (lens : List Nat) : Nat :=
  lens.foldl (fun m n => max m (processedLen skip n)) 0

/-- `start_idx = max(0, annotation['start'] - skip_points)`. -/
def startIdx (skip : Nat) (a : Ann) : Int := max 0 (a.start - (skip : Int))

/-- `end_idx = max(0, annotation['end'] - skip_points)`. -/
def stopIdx (skip : Nat) (a : Ann) : Int := max 0 (a.stop - (skip : Int))

/-- Value of row `r` of the label column for an array of post-skip length
`n`: the annotation loop of `_save_merged_data` writes
`label_matrix[start_idx:end_idx, i] = label_id` only when
`start_idx < len(data) and end_idx <= len(data) and start_idx < end_idx`,
later annotations overwriting earlier ones; rows no slice reaches stay 0.
The identical loop produces `labels` in `_save_separate_data`. -/
def labelCell (anns : List Ann) (skip : Nat) (n : Nat) (r : Nat) : Nat :=
  anns.foldl (fun acc a =>
    let si := startIdx skip a
    let ei := stopIdx skip a
    if si < (n : Int) ∧ ei ≤ (n : Int) ∧ si < ei ∧ si ≤ (r : Int) ∧ (r : Int) < ei
    then a.id else acc) 0

/-- Modelled from the spec: the label cell as §6 words it — "cell =
annotation id where the post-skip array index falls in `[start,end)` of
that annotation, else 0" — with the same post-skip index adjustment but
no in-range gate on the annotation. Used only to compare the claim's
wording with `labelCell`. -/
def specLabelCell (anns : List Ann) (skip : Nat) (r : Nat) : Nat :=
  anns.foldl (fun acc a =>
    if startIdx skip a ≤ (r : Int) ∧ (r : Int) < stopIdx skip a then a.id else acc) 0

/-- `DataManager._save_merged_data(save_path, annotations, skip_points,
current_group_index)`, observationally: the target directory is named
`datagroup{index+1}masks{count}`; an artifact conflict aborts with the
confirm signal and no writes; all-empty post-skip data aborts with an
error (no writes, no confirm); otherwise the three artifacts are written
into the named directory. `lens` are the loaded arrays' lengths. -/
def saveMergedData (fs : Fs) (skip_file_check : Bool) (lens : List Nat)
    (anns : List Ann) (skip : Nat) (group_index : Int) : SaveOutcome :=
  let dir := "datagroup" ++ toString (group_index + 1) ++ "masks" ++ toString anns.length
  let chk := checkFilesExist skip_file_check fs dir
  if !chk.1 then ⟨false, [], chk.2⟩
  else if lens.all (fun n => processedLen skip n = 0) then ⟨false, [], []⟩
  else ⟨true, artifactNames.map (fun f => (dir, f)), []⟩

/-- `DataManager._save_separate_data(save_path, annotations, skip_points)`,
observationally: for every file whose length exceeds `skip_points`, the
three artifacts are written into a directory named after the file; files
with `skip_points >= len` are skipped. No existence check is consulted
and no confirm signal is ever emitted on this path. `files` pairs each
loaded array's length with its target directory name. -/
def saveSeparateData (_fs : Fs) (files : List (Nat × String))
    (_anns : List Ann) (skip : Nat) : SaveOutcome :=
  ⟨true,
    (files.filter (fun p => skip < p.1)).foldr
      (fun p acc => artifactNames.map (fun f => (p.2, f)) ++ acc) [],
    []⟩

/- ----------------------------------------------------------------- -/
/- MainWindow: cross-view mapping, drag sync, group switch.           -/
/- ----------------------------------------------------------------- -/

/-- One rendered mask of a plot widget (an entry of `annotation_items` with
`type == 'mask'`): its uuid (modelled by a fresh counter), its region
interval, and the displayed mask number. -/
structure Mask where
  lid : Nat
  mstart : Int
  mstop : Int
  mask_number : Option Nat
  deriving Repr, DecidableEq

/-- One plot widget: its identity (`file_name`, modelled as a Nat key),
whether `self.data` is loaded (add_annotation_mask refuses to create masks
without data), and its mask list. -/
structure View where
  vname : Nat
  hasData : Bool
  masks : List Mask
  deriving Repr, DecidableEq

/-- Association-list update with Python-dict semantics: overwrite in place
when the key exists, append otherwise. -/
def setA {β : Type} (k : Nat) (v : β) : List (Nat × β) → List (Nat × β)
  | [] => [(k, v)]
  | p :: rest => if p.1 = k then (k, v) :: rest else p :: setA k v rest

/-- Association-list lookup (first match, as in a dict). -/
def lookupA {β : Type} (k : Nat) (l : List (Nat × β)) : Option β :=
  (l.find? (fun p => p.1 == k)).map (·.2)

/-- Association-list deletion of the first match (`del d[k]`). -/
def eraseA {β : Type} (k : Nat) : List (Nat × β) → List (Nat × β)
  | [] => []
  | p :: rest => if p.1 = k then rest else p :: eraseA k rest

/-- Int-keyed variants for `self.group_annotations` (keys are group
indices). -/
def setAI {β : Type} (k : Int) (v : β) : List (Int × β) → List (Int × β)
  | [] => [(k, v)]
  | p :: rest => if p.1 = k then (k, v) :: rest else p :: setAI k v rest

/-- Int-keyed association-list lookup. -/
def lookupAI {β : Type} (k : Int) (l : List (Int × β)) : Option β :=
  (l.find? (fun p => p.1 == k)).map (·.2)

/-- The `MainWindow` state the claims concern: the engine, the plot
widgets, the per-group snapshots `group_annotations`, the group cursor,
the cross-view maps `global_mask_mapping` (global id → per-view local
ids; a view without data contributes a `none` local id, as the Python
code stores the `None` returned by `add_annotation_mask`) and
`global_to_annotation_mapping` (whose value is the possibly-`None` result
of `add_annotation`), their id counter, a fresh-uuid counter standing in
for `uuid.uuid4()`, the armed mask id, and whether a current file is
loaded (`self.current_file_path`). -/
structure MW where
  engine : Engine
  views : List View
  group_annotations : List (Int × List Ann)
  current_group_index : Int
  num_groups : Nat
  global_mask_mapping : List (Nat × List (Nat × Option Nat))
  global_to_annotation_mapping : List (Nat × Option Nat)
  next_global_mask_id : Nat
  next_local_uuid : Nat
  selected_mask_id : Option Nat
  current_file_loaded : Bool
  deriving Repr, DecidableEq

/-- `TimeSeriesPlotWidget.add_annotation_mask(start, end, mask_number)`:
with no data it warns and returns None; otherwise it appends a movable
region with a fresh uuid and returns that uuid. -/
def addMaskToView (v : View) (uuid : Nat) (s t : Int) (num : Nat) : View × Option Nat :=
  if v.hasData then
    ({ v with masks := v.masks ++ [⟨uuid, s, t, some num⟩] }, some uuid)
  else (v, none)

/-- The view loop shared by `sync_annotation_to_all_plots` and
`sync_all_annotations_to_plots`: ask every widget to render the mask,
recording each widget's returned local id (possibly None) under its name.
Returns the updated views, the mapping entries in view order, and the
advanced uuid counter. -/
def broadcastViews (s t : Int) (num : Nat) : List View → Nat → List View × List (Nat × Option Nat) × Nat
  | [], u => ([], [], u)
  | v :: rest, u =>
    let r := addMaskToView v u s t num
    let u1 := if r.2.isSome then u + 1 else u
    let rec0 := broadcastViews s t num rest u1
    (r.1 :: rec0.1, (v.vname, r.2) :: rec0.2.1, rec0.2.2)

/-- `MainWindow.sync_annotation_to_all_plots(start, end)`: with no plot
widgets returns None; otherwise mints the next global mask id, renders
the mask (numbered by the global id) on every view, records the per-view
local ids under the new global id and returns it. -/
def syncAnnToAllPlots (s t : Int) (mw : MW) : Option Nat × MW :=
  if mw.views.isEmpty then (none, mw)
  else
    let g := mw.next_global_mask_id
    let r := broadcastViews s t g mw.views mw.next_local_uuid
    (some g,
      { mw with
        views := r.1
        global_mask_mapping := setA g r.2.1 mw.global_mask_mapping
        next_global_mask_id := g + 1
        next_local_uuid := r.2.2 })

/-- `MainWindow.on_range_confirmed(start, end)`: guarded by
`current_file_path`; adds to the engine (the result may be None), always
broadcasts a new mask set, and binds the new global id to the add result
in `global_to_annotation_mapping`. -/
def onRangeConfirmed (s t : Int) (mw : MW) : MW :=
  if ¬mw.current_file_loaded then mw
  else
    let ra := mw.engine.add s t 10
    let rs := syncAnnToAllPlots s t { mw with engine := ra.2 }
    match rs.1 with
    | some g =>
      { rs.2 with
        global_to_annotation_mapping := setA g ra.1 rs.2.global_to_annotation_mapping }
    | none => rs.2

/-- `MainWindow.clear_all_plot_annotations()`: every widget's items are
removed. -/
def clearAllPlotMasks (mw : MW) : MW :=
  { mw with views := mw.views.map (fun v => { v with masks := [] }) }

/-- The per-annotation loop body of `sync_all_annotations_to_plots`:
mint a global id, bind it to the annotation id, broadcast the mask
(numbered by the global id) to every view. -/
def syncAllLoop : List Ann → MW → MW
  | [], mw => mw
  | a :: rest, mw =>
    let g := mw.next_global_mask_id
    let r := broadcastViews a.start a.stop g mw.views mw.next_local_uuid
    syncAllLoop rest
      { mw with
        views := r.1
        global_mask_mapping := setA g r.2.1 mw.global_mask_mapping
        global_to_annotation_mapping := setA g (some a.id) mw.global_to_annotation_mapping
        next_global_mask_id := g + 1
        next_local_uuid := r.2.2 }

/-- `MainWindow.sync_all_annotations_to_plots()`: with no widgets or no
annotations it returns early; otherwise both mappings are cleared and
every stored annotation is broadcast afresh under a new global id. -/
def syncAllAnnsToPlots (mw : MW) : MW :=
  if mw.views.isEmpty then mw
  else if mw.engine.annotations.isEmpty then mw
  else
    syncAllLoop mw.engine.annotations
      { mw with global_mask_mapping := [], global_to_annotation_mapping := [] }

/-- `MainWindow.on_annotation_deleted(annotation_id)`: drops the mapping
entries of the first global id bound to this annotation id, removes the
annotation from the engine, clears every widget's masks, and rebuilds the
mappings by a full resync. (The intermediate `load_annotations` display
refresh only adds non-mask items that the following clear removes.) -/
def onAnnDeleted (aid : Nat) (mw : MW) : MW :=
  let gfound := (mw.global_to_annotation_mapping.find? (fun p => p.2 == some aid)).map (·.1)
  let mw1 := match gfound with
    | some g =>
      { mw with
        global_to_annotation_mapping := eraseA g mw.global_to_annotation_mapping
        global_mask_mapping := eraseA g mw.global_mask_mapping }
    | none => mw
  let mw2 := { mw1 with engine := (mw1.engine.removeAnn aid).2 }
  syncAllAnnsToPlots (clearAllPlotMasks mw2)

/-- `MainWindow.on_group_changed(group_index)`: clears the mask selection;
inside range, saves the outgoing engine list under the outgoing group
index (when one is current), moves the cursor, clears the engine, and
replays a saved snapshot through `add_annotation(start, end)` — with the
default `min_width` of 10. `create_plot_widgets` then tears the widgets
down and recreates them for the group's files with no masks (modelled as
the same view set with empty mask lists; data loading is asynchronous and
arrives later). -/
def onGroupChanged (idx : Int) (mw : MW) : MW :=
  let mw0 := { mw with selected_mask_id := none }
  if 0 ≤ idx ∧ idx < (mw0.num_groups : Int) then
    let mw1 := if 0 ≤ mw0.current_group_index then
        { mw0 with
          group_annotations :=
            setAI mw0.current_group_index mw0.engine.annotations mw0.group_annotations }
      else mw0
    let mw2 := { mw1 with current_group_index := idx, engine := mw1.engine.clearAnns }
    let mw3 := match lookupAI idx mw2.group_annotations with
      | some saved =>
        { mw2 with
        engine := saved.foldl (fun (e : Engine) (a : Ann) => (e.add a.start a.stop 10).2) mw2.engine }
      | none => mw2
    { mw3 with views := mw3.views.map (fun v => { v with masks := [] }) }
  else mw0

/-- The reverse lookup of `on_mask_dragged`: the first global id whose
entry list carries (sender widget, dragged local id). -/
def resolveGlobal (gmap : List (Nat × List (Nat × Option Nat))) (sender lid : Nat) : Option Nat :=
  (gmap.find? (fun p => p.2.any (fun q => q.1 == sender && q.2 == some lid))).map (·.1)

/-- `TimeSeriesPlotWidget.update_mask_by_id(mask_id, start, end)`: set the
region of the first mask with that uuid; report failure when absent. -/
def updateMaskById (v : View) (lid : Nat) (s t : Int) : View :=
  { v with masks := v.masks.map (fun m =>
      if m.lid = lid then { m with mstart := s, mstop := t } else m) }

/-- `MainWindow.on_mask_dragged(start, end)` with sender widget `sender`
and `sender._last_dragged_mask_id = lastDragged`: resolves the local id
to a global id (no-op when unresolvable); the permission check `if
self.selected_mask_id != global_mask_id` only logs a warning — its
`return` is commented out in the source, so the handler proceeds either
way: it pushes the new interval to the matching local mask of every
other view listed under the global id, then updates the bound annotation
through `update_annotation_position`. -/
def onMaskDragged (sender : Nat) (lastDragged : Option Nat) (s t : Int) (mw : MW) : MW :=
  match lastDragged with
  | none => mw
  | some lid =>
    match resolveGlobal mw.global_mask_mapping sender lid with
    | none => mw
    | some g =>
      let entries := (lookupA g mw.global_mask_mapping).getD []
      let mw1 := { mw with views := mw.views.map (fun v =>
        if v.vname = sender then v
        else entries.foldl (fun v1 q =>
          if q.1 = v1.vname then
            match q.2 with
            | some l => updateMaskById v1 l s t
            | none => v1
          else v1) v) }
      match lookupA g mw1.global_to_annotation_mapping with
      | some (some aid) =>
        { mw1 with engine := (mw1.engine.updatePosition aid s t).2 }
      | _ => mw1

/-- The claim-side 1:1 reading of the (global id → annotation id) map:
no two entries carry the same bound annotation value. -/
def aMapOneToOne (mw : MW) : Prop :=
  (mw.global_to_annotation_mapping.map Prod.snd).Nodup

/- ----------------------------------------------------------------- -/
/- Concrete states used by scenario theorems and witnesses.           -/
/- ----------------------------------------------------------------- -/

/-- A fresh main window: one data-bearing view, empty store, empty
mappings, a single group, a file loaded. -/
def mwOneView : MW :=
  { engine := ⟨[], 1, none⟩
    views := [⟨0, true, []⟩]
    group_annotations := []
    current_group_index := 0
    num_groups := 1
    global_mask_mapping := []
    global_to_annotation_mapping := []
    next_global_mask_id := 1
    next_local_uuid := 0
    selected_mask_id := none
    current_file_loaded := true }

/-- Two views showing the one committed annotation (100, 250) as masks 10
and 11 under global mask id 1, with nothing armed. -/
def mwDragState : MW :=
  { engine := ⟨[⟨1, 100, 250⟩], 2, none⟩
    views := [⟨0, true, [⟨10, 100, 250, some 1⟩]⟩, ⟨1, true, [⟨11, 100, 250, some 1⟩]⟩]
    group_annotations := []
    current_group_index := 0
    num_groups := 1
    global_mask_mapping := [(1, [(0, some 10), (1, some 11)])]
    global_to_annotation_mapping := [(1, some 1)]
    next_global_mask_id := 2
    next_local_uuid := 12
    selected_mask_id := none
    current_file_loaded := true }

/-- Two groups, group 0 current, holding one annotation of width 5
(below the default minimum width 10, as a drag can produce). -/
def mwTwoGroups : MW :=
  { engine := ⟨[⟨1, 100, 105⟩], 2, none⟩
    views := []
    group_annotations := []
    current_group_index := 0
    num_groups := 2
    global_mask_mapping := []
    global_to_annotation_mapping := []
    next_global_mask_id := 1
    next_local_uuid := 0
    selected_mask_id := none
    current_file_loaded := true }

/-- Like `mwTwoGroups` but the stored annotation is 150 wide. -/
def mwTwoGroupsWide : MW :=
  { engine := ⟨[⟨1, 100, 250⟩], 2, none⟩
    views := []
    group_annotations := []
    current_group_index := 0
    num_groups := 2
    global_mask_mapping := []
    global_to_annotation_mapping := []
    next_global_mask_id := 1
    next_local_uuid := 0
    selected_mask_id := none
    current_file_loaded := true }

/-- A window with two stored annotations, one view, and the stale
mappings left behind by two confirms. -/
def mwResyncState : MW :=
  { engine := ⟨[⟨1, 50, 80⟩, ⟨2, 100, 250⟩], 3, none⟩
    views := [⟨0, true, []⟩]
    group_annotations := []
    current_group_index := 0
    num_groups := 1
    global_mask_mapping := [(1, [(0, some 0)]), (2, [(0, some 1)])]
    global_to_annotation_mapping := [(1, some 1), (2, some 1)]
    next_global_mask_id := 3
    next_local_uuid := 2
    selected_mask_id := none
    current_file_loaded := true }

/-- Selection machine over two idle plot widgets (0 and 1) with global
mask id 1 armed — the state right after arming a mask shown in both
views. -/
def selTwoViews : SelMachine :=
  { selected_mask_id := some 1
    viewStates := [⟨0, false, 0, false⟩, ⟨1, false, 0, false⟩] }

/-- A filesystem whose directory `a` already holds `data.npy`. -/
def fsSep : Fs := ⟨fun d f => d == "a" && f == "data.npy"⟩

/-- A filesystem whose directory `datagroup1masks1` (the merged-mode
target for group index 0 with one annotation) already holds `data.npy`. -/
def fsMerged : Fs := ⟨fun d f => d == "datagroup1masks1" && f == "data.npy"⟩

/- ----------------------------------------------------------------- -/
/- Supporting lemmas about the engine embedding.                      -/
/- ----------------------------------------------------------------- -/

theorem renumberFrom_map_id (k : Nat) (l : List Ann) :
    (renumberFrom k l).map (·.id) = List.range' k l.length := by
  induction l generalizing k with
  | nil => rfl
  | cons a rest ih => simp [renumberFrom, List.range'_succ, ih]

theorem renumberFrom_length (k : Nat) (l : List Ann) :
    (renumberFrom k l).length = l.length := by
  induction l generalizing k with
  | nil => rfl
  | cons a rest ih => simp [renumberFrom, ih]

theorem renumberFrom_map_pairOf (k : Nat) (l : List Ann) :
    (renumberFrom k l).map pairOf = l.map pairOf := by
  induction l generalizing k with
  | nil => rfl
  | cons a rest ih => simp [renumberFrom, pairOf, ih]

theorem sortAnns_perm (l : List Ann) : (sortAnns l).Perm l :=
  List.perm_insertionSort annLE l

theorem sortAnns_sorted (l : List Ann) : sortedByStart (sortAnns l) := by
  have h := List.sorted_insertionSort annLE l
  exact h.imp (fun hab => hab)

theorem sortedByStart_of_map_pairOf_eq {l1 l2 : List Ann}
    (h : l1.map pairOf = l2.map pairOf) (hs : sortedByStart l1) : sortedByStart l2 := by
  unfold sortedByStart at *
  have h1 : (l1.map pairOf).Pairwise (fun p q => p.1 ≤ q.1) := by
    exact (List.pairwise_map).mpr (hs.imp (fun hab => hab))
  rw [h] at h1
  have h2 := (List.pairwise_map).mp h1
  exact h2.imp (fun hab => hab)

theorem updateFirst_map_id (aid : Nat) (s t : Int) (l : List Ann) :
    ((updateFirst aid s t l).2).map (·.id) = l.map (·.id) := by
  induction l with
  | nil => rfl
  | cons a rest ih =>
    by_cases h : a.id = aid
    · simp [updateFirst, h]
    · simp [updateFirst, h, ih]

theorem updateFirst_mem (aid : Nat) (s t : Int) (l : List Ann) :
    ∀ b ∈ (updateFirst aid s t l).2, b ∈ l ∨ (b.start = s ∧ b.stop = t) := by
  induction l with
  | nil => intro b hb; simp [updateFirst] at hb
  | cons a rest ih =>
    intro b hb
    by_cases h : a.id = aid
    · simp only [updateFirst, if_pos h, List.mem_cons] at hb
      rcases hb with hb | hb
      · exact Or.inr (by simp [hb])
      · exact Or.inl (List.mem_cons_of_mem a hb)
    · simp only [updateFirst, if_neg h, List.mem_cons] at hb
      rcases hb with hb | hb
      · exact Or.inl (by simp [hb])
      · rcases ih b hb with h1 | h1
        · exact Or.inl (List.mem_cons_of_mem a h1)
        · exact Or.inr h1

theorem removeFirst_sublist (aid : Nat) (l : List Ann) :
    ((removeFirst aid l).2).Sublist l := by
  induction l with
  | nil => simp [removeFirst]
  | cons a rest ih =>
    by_cases h : a.id = aid
    · simp [removeFirst, h]
    · simpa [removeFirst, h] using ih.cons₂ a

theorem updateFirst_sort_valid (aid : Nat) (s t : Int) (l : List Ann) (hst : s < t)
    (hid : (l.map (·.id)).Perm (List.range' 1 l.length))
    (hlt : ∀ a ∈ l, a.start < a.stop) :
    ((sortAnns (updateFirst aid s t l).2).map (·.id)).Perm
        (List.range' 1 (sortAnns (updateFirst aid s t l).2).length) ∧
    ∀ a ∈ sortAnns (updateFirst aid s t l).2, a.start < a.stop := by
  have hmap : ((updateFirst aid s t l).2).map (·.id) = l.map (·.id) :=
    updateFirst_map_id aid s t l
  have hlen : ((updateFirst aid s t l).2).length = l.length := by
    have h := congrArg List.length hmap
    simpa using h
  have hlen2 : (sortAnns (updateFirst aid s t l).2).length = l.length := by
    have h := (sortAnns_perm (updateFirst aid s t l).2).length_eq
    rw [h, hlen]
  constructor
  · rw [hlen2]
    have h1 : ((sortAnns (updateFirst aid s t l).2).map (·.id)).Perm
        (((updateFirst aid s t l).2).map (·.id)) := (sortAnns_perm _).map _
    rw [hmap] at h1
    exact h1.trans hid
  · intro a ha
    have ha2 : a ∈ (updateFirst aid s t l).2 := ((sortAnns_perm _).mem_iff).mp ha
    rcases updateFirst_mem aid s t l a ha2 with h1 | h1
    · exact hlt a h1
    · rw [h1.1, h1.2]; exact hst

theorem add_dense_sorted (e : Engine) (s t mw : Int) (h : (e.add s t mw).1 ≠ none) :
    denseIds ((e.add s t mw).2).annotations ∧ sortedByStart ((e.add s t mw).2).annotations := by
  by_cases hts : t < s
  · by_cases hw : s - t < mw
    · exfalso; apply h; simp [Engine.add, if_pos hts, hw]
    · simp only [Engine.add, if_pos hts]
      constructor
      · simp [hw, denseIds, renumberList, renumberFrom_map_id, renumberFrom_length]
      · simp only [hw, if_false]
        exact sortedByStart_of_map_pairOf_eq (renumberFrom_map_pairOf 1 _).symm (sortAnns_sorted _)
  · by_cases hw : t - s < mw
    · exfalso; apply h; simp [Engine.add, if_neg hts, hw]
    · simp only [Engine.add, if_neg hts]
      constructor
      · simp [hw, denseIds, renumberList, renumberFrom_map_id, renumberFrom_length]
      · simp only [hw, if_false]
        exact sortedByStart_of_map_pairOf_eq (renumberFrom_map_pairOf 1 _).symm (sortAnns_sorted _)

theorem remove_dense_sorted (e : Engine) (aid : Nat) (hs : sortedByStart e.annotations)
    (h : (e.removeAnn aid).1 = true) :
    denseIds ((e.removeAnn aid).2).annotations ∧
    sortedByStart ((e.removeAnn aid).2).annotations := by
  by_cases hf : (removeFirst aid e.annotations).1
  · simp only [Engine.removeAnn, hf, if_true]
    constructor
    · simp [denseIds, renumberList, renumberFrom_map_id, renumberFrom_length]
    · exact sortedByStart_of_map_pairOf_eq (renumberFrom_map_pairOf 1 _).symm
        (hs.sublist (removeFirst_sublist aid e.annotations))
  · exfalso; simp [Engine.removeAnn, hf] at h

/- ----------------------------------------------------------------- -/
/- Supporting lemmas about the viewport embedding.                    -/
/- ----------------------------------------------------------------- -/

theorem zoomIn_eq_of_ne (v : Viewport) (hd0 : ¬ v.data_length = 0)
    (hns : ¬ max 100 (pyIntMul07 v.window_size) = v.window_size) :
    zoomIn v = ⟨v.data_length, max 100 (pyIntMul07 v.window_size),
      min (max 0 (v.window_start + (v.window_size - max 100 (pyIntMul07 v.window_size)) / 2))
          (max 0 ((v.data_length : Int) - max 100 (pyIntMul07 v.window_size)))⟩ := by
  simp [zoomIn, hd0, hns]

theorem zoomIn_eq_of_eq (v : Viewport) (hd0 : ¬ v.data_length = 0)
    (hns : max 100 (pyIntMul07 v.window_size) = v.window_size) :
    zoomIn v = v := by
  simp [zoomIn, hd0, hns]

theorem zoomOut_eq_of_ne (v : Viewport) (hd0 : ¬ v.data_length = 0)
    (hns : ¬ min (v.data_length : Int) (pyIntMul14 v.window_size) = v.window_size) :
    zoomOut v = ⟨v.data_length, min (v.data_length : Int) (pyIntMul14 v.window_size),
      min (max 0 (v.window_start -
            (min (v.data_length : Int) (pyIntMul14 v.window_size) - v.window_size) / 2))
          (max 0 ((v.data_length : Int) - min (v.data_length : Int) (pyIntMul14 v.window_size)))⟩ := by
  simp [zoomOut, hd0, hns]

theorem zoomOut_eq_of_eq (v : Viewport) (hd0 : ¬ v.data_length = 0)
    (hns : min (v.data_length : Int) (pyIntMul14 v.window_size) = v.window_size) :
    zoomOut v = v := by
  simp [zoomOut, hd0, hns]

theorem zoomIn_general (v : Viewport) (hd : 0 < v.data_length)
    (h0 : 0 ≤ v.window_start)
    (hc : v.window_start ≤ max 0 ((v.data_length : Int) - v.window_size)) :
    (zoomIn v).window_size = max 100 (pyIntMul07 v.window_size) ∧
    (zoomIn v).data_length = v.data_length ∧
    0 ≤ (zoomIn v).window_start ∧
    (zoomIn v).window_start ≤ max 0 ((v.data_length : Int) - (zoomIn v).window_size) ∧
    (max 100 (pyIntMul07 v.window_size) ≠ v.window_size →
      (zoomIn v).window_start =
        min (max 0 (v.window_start + (v.window_size - max 100 (pyIntMul07 v.window_size)) / 2))
            (max 0 ((v.data_length : Int) - max 100 (pyIntMul07 v.window_size))) ∧
      2 * v.window_start + v.window_size - 1 ≤
        2 * (v.window_start + (v.window_size - max 100 (pyIntMul07 v.window_size)) / 2)
          + max 100 (pyIntMul07 v.window_size) ∧
      2 * (v.window_start + (v.window_size - max 100 (pyIntMul07 v.window_size)) / 2)
          + max 100 (pyIntMul07 v.window_size) ≤ 2 * v.window_start + v.window_size + 1) := by
  have hd0 : ¬ v.data_length = 0 := by omega
  by_cases hns : max 100 (pyIntMul07 v.window_size) = v.window_size
  · rw [zoomIn_eq_of_eq v hd0 hns]
    exact ⟨hns.symm, rfl, h0, hc, fun hcon => absurd hns hcon⟩
  · rw [zoomIn_eq_of_ne v hd0 hns]
    refine ⟨rfl, rfl, ?_, ?_, fun _ => ⟨rfl, by omega, by omega⟩⟩
    · dsimp only
      omega
    · dsimp only
      omega

theorem zoomOut_general (v : Viewport) (hd : 0 < v.data_length)
    (h0 : 0 ≤ v.window_start)
    (hc : v.window_start ≤ max 0 ((v.data_length : Int) - v.window_size)) :
    (zoomOut v).window_size = min (v.data_length : Int) (pyIntMul14 v.window_size) ∧
    (zoomOut v).data_length = v.data_length ∧
    0 ≤ (zoomOut v).window_start ∧
    (zoomOut v).window_start ≤ max 0 ((v.data_length : Int) - (zoomOut v).window_size) ∧
    (min (v.data_length : Int) (pyIntMul14 v.window_size) ≠ v.window_size →
      (zoomOut v).window_start =
        min (max 0 (v.window_start -
              (min (v.data_length : Int) (pyIntMul14 v.window_size) - v.window_size) / 2))
            (max 0 ((v.data_length : Int) - min (v.data_length : Int) (pyIntMul14 v.window_size))) ∧
      2 * v.window_start + v.window_size - 1 ≤
        2 * (v.window_start -
              (min (v.data_length : Int) (pyIntMul14 v.window_size) - v.window_size) / 2)
          + min (v.data_length : Int) (pyIntMul14 v.window_size) ∧
      2 * (v.window_start -
            (min (v.data_length : Int) (pyIntMul14 v.window_size) - v.window_size) / 2)
          + min (v.data_length : Int) (pyIntMul14 v.window_size)
        ≤ 2 * v.window_start + v.window_size + 1) := by
  have hd0 : ¬ v.data_length = 0 := by omega
  by_cases hns : min (v.data_length : Int) (pyIntMul14 v.window_size) = v.window_size
  · rw [zoomOut_eq_of_eq v hd0 hns]
    exact ⟨hns.symm, rfl, h0, hc, fun hcon => absurd hns hcon⟩
  · rw [zoomOut_eq_of_ne v hd0 hns]
    refine ⟨rfl, rfl, ?_, ?_, fun _ => ⟨rfl, by omega, by omega⟩⟩
    · dsimp only
      omega
    · dsimp only
      omega

/- ----------------------------------------------------------------- -/
/- Supporting lemmas about the save embedding.                        -/
/- ----------------------------------------------------------------- -/

theorem labelCell_one (a : Ann) (skip n r : Nat) :
    labelCell [a] skip n r =
      if startIdx skip a < (n : Int) ∧ stopIdx skip a ≤ (n : Int) ∧
         startIdx skip a < stopIdx skip a ∧ startIdx skip a ≤ (r : Int) ∧
         (r : Int) < stopIdx skip a
      then a.id else 0 := rfl

/- ----------------------------------------------------------------- -/
/- Supporting lemmas about the main-window embedding.                 -/
/- ----------------------------------------------------------------- -/

theorem lookupAI_setAI_self {β : Type} (k : Int) (v : β) (l : List (Int × β)) :
    lookupAI k (setAI k v l) = some v := by
  induction l with
  | nil => simp [setAI, lookupAI]
  | cons p rest ih =>
    by_cases h : p.1 = k
    · simp [setAI, lookupAI, h]
    · simp only [setAI, if_neg h]
      simp only [lookupAI, List.find?]
      rw [show (p.1 == k) = false by simpa using h]
      exact ih

theorem lookupAI_setAI_ne {β : Type} (k k' : Int) (v : β) (l : List (Int × β)) (h : k' ≠ k) :
    lookupAI k (setAI k' v l) = lookupAI k l := by
  induction l with
  | nil => simp [setAI, lookupAI, List.find?, show (k' == k) = false by simpa using h]
  | cons p rest ih =>
    by_cases hp : p.1 = k'
    · simp only [setAI, if_pos hp, lookupAI, List.find?]
      rw [show (k' == k) = false by simpa using h,
        show (p.1 == k) = false by simp [hp]; omega]
    · simp only [setAI, if_neg hp, lookupAI, List.find?] at *
      cases hc : (p.1 == k) with
      | true => rfl
      | false => exact ih

theorem add_pairs_perm (e : Engine) (s t : Int) (hw : 10 ≤ t - s) :
    (((e.add s t 10).2).annotations.map pairOf).Perm ((s, t) :: e.annotations.map pairOf) := by
  have hts : ¬ t < s := by omega
  have hw2 : ¬ t - s < 10 := by omega
  simp only [Engine.add, if_neg hts]
  rw [if_neg (by simpa using hw2)]
  show ((renumberList (sortAnns (e.annotations ++ [⟨e.next_id, s, t⟩]))).map pairOf).Perm _
  rw [renumberList, renumberFrom_map_pairOf]
  have h1 : ((sortAnns (e.annotations ++ [⟨e.next_id, s, t⟩])).map pairOf).Perm
      ((e.annotations ++ [(⟨e.next_id, s, t⟩ : Ann)]).map pairOf) := (sortAnns_perm _).map _
  refine h1.trans ?_
  rw [List.map_append]
  exact List.perm_append_comm.trans (by simp [pairOf])

theorem foldl_add_pairs_perm (l : List Ann) (e : Engine)
    (hw : ∀ a ∈ l, 10 ≤ a.stop - a.start) :
    (((l.foldl (fun (e : Engine) (a : Ann) => (e.add a.start a.stop 10).2) e).annotations).map
        pairOf).Perm
      (l.map pairOf ++ e.annotations.map pairOf) := by
  induction l generalizing e with
  | nil => simp
  | cons a rest ih =>
    simp only [List.foldl_cons]
    have h1 := ih ((e.add a.start a.stop 10).2)
      (fun b hb => hw b (List.mem_cons_of_mem a hb))
    refine h1.trans ?_
    have h2 : (((e.add a.start a.stop 10).2).annotations.map pairOf).Perm
        ((a.start, a.stop) :: e.annotations.map pairOf) :=
      add_pairs_perm e a.start a.stop (hw a (List.mem_cons_self a rest))
    have h3 : (a :: rest).map pairOf ++ e.annotations.map pairOf
        = (a.start, a.stop) :: (rest.map pairOf ++ e.annotations.map pairOf) := by
      simp [pairOf]
    rw [h3]
    exact (List.Perm.append_left _ h2).trans List.perm_middle

theorem onGroupChanged_eq (idx : Int) (mw : MW) (h0 : 0 ≤ idx)
    (hn : idx < (mw.num_groups : Int)) (hc : 0 ≤ mw.current_group_index) :
    onGroupChanged idx mw =
      { mw with
        selected_mask_id := none
        group_annotations := setAI mw.current_group_index mw.engine.annotations mw.group_annotations
        current_group_index := idx
        engine :=
          match lookupAI idx
              (setAI mw.current_group_index mw.engine.annotations mw.group_annotations) with
          | some saved =>
            saved.foldl (fun (e : Engine) (a : Ann) => (e.add a.start a.stop 10).2) ⟨[], 1, none⟩
          | none => (⟨[], 1, none⟩ : Engine)
        views := mw.views.map (fun v => { v with masks := [] }) } := by
  simp only [onGroupChanged, Engine.clearAnns]
  rw [if_pos ⟨h0, hn⟩, if_pos hc]
  rcases hfind : lookupAI idx
      (setAI mw.current_group_index mw.engine.annotations mw.group_annotations) with _ | saved <;>
    simp [hfind]

theorem addMaskToView_vname (v : View) (u : Nat) (s t : Int) (num : Nat) :
    ((addMaskToView v u s t num).1).vname = v.vname := by
  unfold addMaskToView
  split <;> rfl

theorem broadcastViews_names (s t : Int) (num : Nat) (vs : List View) (u : Nat) :
    ((broadcastViews s t num vs u).2.1).map Prod.fst = vs.map View.vname ∧
    ((broadcastViews s t num vs u).1).map View.vname = vs.map View.vname := by
  induction vs generalizing u with
  | nil => exact ⟨rfl, rfl⟩
  | cons v rest ih =>
    simp only [broadcastViews]
    constructor
    · simp only [List.map_cons]
      rw [(ih _).1]
    · simp only [List.map_cons]
      rw [(ih _).2, addMaskToView_vname]

theorem setA_fresh {β : Type} (k : Nat) (v : β) (l : List (Nat × β))
    (h : ∀ p ∈ l, p.1 ≠ k) : setA k v l = l ++ [(k, v)] := by
  induction l with
  | nil => rfl
  | cons p rest ih =>
    simp only [setA, if_neg (h p (List.mem_cons_self p rest))]
    rw [ih (fun q hq => h q (List.mem_cons_of_mem _ hq))]
    rfl

theorem syncAllLoop_spec (anns : List Ann) (mw : MW)
    (hG : ∀ p ∈ mw.global_mask_mapping, p.1 < mw.next_global_mask_id)
    (hA : ∀ p ∈ mw.global_to_annotation_mapping, p.1 < mw.next_global_mask_id) :
    (syncAllLoop anns mw).engine = mw.engine ∧
    (syncAllLoop anns mw).views.map View.vname = mw.views.map View.vname ∧
    (∃ gm, (syncAllLoop anns mw).global_mask_mapping = mw.global_mask_mapping ++ gm ∧
      gm.length = anns.length ∧
      ∀ p ∈ gm, p.2.map Prod.fst = mw.views.map View.vname) ∧
    (∃ am, (syncAllLoop anns mw).global_to_annotation_mapping
        = mw.global_to_annotation_mapping ++ am ∧
      am.map Prod.snd = anns.map (fun a => some a.id)) := by
  induction anns generalizing mw with
  | nil => exact ⟨rfl, rfl, ⟨[], by simp [syncAllLoop], rfl, by simp⟩, ⟨[], by simp [syncAllLoop], rfl⟩⟩
  | cons a rest ih =>
    simp only [syncAllLoop]
    have hGfresh : ∀ p ∈ mw.global_mask_mapping, p.1 ≠ mw.next_global_mask_id := by
      intro p hp
      have := hG p hp
      omega
    have hAfresh : ∀ p ∈ mw.global_to_annotation_mapping, p.1 ≠ mw.next_global_mask_id := by
      intro p hp
      have := hA p hp
      omega
    set r := broadcastViews a.start a.stop mw.next_global_mask_id mw.views mw.next_local_uuid
      with hr
    set mw1 : MW :=
      { mw with
        views := r.1
        global_mask_mapping := setA mw.next_global_mask_id r.2.1 mw.global_mask_mapping
        global_to_annotation_mapping :=
          setA mw.next_global_mask_id (some a.id) mw.global_to_annotation_mapping
        next_global_mask_id := mw.next_global_mask_id + 1
        next_local_uuid := r.2.2 } with hmw1
    have hG1 : ∀ p ∈ mw1.global_mask_mapping, p.1 < mw1.next_global_mask_id := by
      intro p hp
      simp only [hmw1] at hp ⊢
      rw [setA_fresh _ _ _ hGfresh] at hp
      rcases List.mem_append.mp hp with h1 | h1
      · have := hG p h1
        omega
      · have h2 : p.1 = mw.next_global_mask_id := by
          simp at h1
          rw [h1]
        omega
    have hA1 : ∀ p ∈ mw1.global_to_annotation_mapping, p.1 < mw1.next_global_mask_id := by
      intro p hp
      simp only [hmw1] at hp ⊢
      rw [setA_fresh _ _ _ hAfresh] at hp
      rcases List.mem_append.mp hp with h1 | h1
      · have := hA p h1
        omega
      · have h2 : p.1 = mw.next_global_mask_id := by
          simp at h1
          rw [h1]
        omega
    obtain ⟨h1, h2, ⟨gm1, hgm1, hlen1, hper1⟩, ⟨am1, ham1, hmap1⟩⟩ := ih mw1 hG1 hA1
    have hnames : mw1.views.map View.vname = mw.views.map View.vname := by
      simp only [hmw1]
      exact (broadcastViews_names a.start a.stop mw.next_global_mask_id mw.views
        mw.next_local_uuid).2
    refine ⟨h1, by rw [h2, hnames], ?_, ?_⟩
    · refine ⟨(mw.next_global_mask_id, r.2.1) :: gm1, ?_, by simp [hlen1], ?_⟩
      · rw [hgm1]
        simp only [hmw1]
        rw [setA_fresh _ _ _ hGfresh]
        simp
      · intro p hp
        rcases List.mem_cons.mp hp with h3 | h3
        · rw [h3]
          exact (broadcastViews_names a.start a.stop mw.next_global_mask_id mw.views
            mw.next_local_uuid).1
        · rw [hper1 p h3, hnames]
    · refine ⟨(mw.next_global_mask_id, some a.id) :: am1, ?_, by simp [hmap1]⟩
      rw [ham1]
      simp only [hmw1]
      rw [setA_fresh _ _ _ hAfresh]
      simp

theorem lookupA_setA_self {β : Type} (k : Nat) (v : β) (l : List (Nat × β)) :
    lookupA k (setA k v l) = some v := by
  induction l with
  | nil => simp [setA, lookupA]
  | cons p rest ih =>
    by_cases h : p.1 = k
    · simp [setA, lookupA, h]
    · simp only [setA, if_neg h]
      simp only [lookupA, List.find?]
      rw [show (p.1 == k) = false by simpa using h]
      exact ih

/- ----------------------------------------------------------------- -/
/- Claim C1: cross-view mapping consistency.                          -/
/- ----------------------------------------------------------------- -/

/-- C1 counterexample: the claim asserts the (global id → annotation id)
map is 1:1 at every reachable state, in particular after an add that
renumbers existing annotations. Starting from a fresh window, confirming
(100, 250) and then (50, 80) renumbers the first annotation from id 1 to
id 2, but its stale binding is not refreshed: both global ids 1 and 2 end
up bound to annotation id 1, so the map is not 1:1. -/
theorem C1_add_renumber_aliases_aMap :
    (onRangeConfirmed 50 80 (onRangeConfirmed 100 250 mwOneView)).global_to_annotation_mapping
      = [(1, some 1), (2, some 1)] ∧
    (onRangeConfirmed 50 80 (onRangeConfirmed 100 250 mwOneView)).engine.annotations
      = [⟨1, 50, 80⟩, ⟨2, 100, 250⟩] ∧
    ¬ aMapOneToOne (onRangeConfirmed 50 80 (onRangeConfirmed 100 250 mwOneView)) := by
  refine ⟨by decide, by decide, ?_⟩
  intro h
  simp [aMapOneToOne] at h
  revert h
  decide

/-- C1 (amended): after a full resync (`sync_all_annotations_to_plots`)
with at least one registered view and a store whose ids are distinct, the
store is untouched, the number of global ids equals the number of stored
annotations, the (global id → annotation id) map is 1:1, every entry
names a stored annotation id, and each global id's per-view map has
exactly one entry per displayed view (in view order); likewise an add
(`on_range_confirmed`) gives its freshly minted global id one entry per
displayed view. The 1:1 property does not, however, survive an add that
renumbers existing annotations (see the counterexample): stale bindings
are refreshed only by the next full resync. -/
theorem C1_mapping_consistency_after_resync :
    (∀ mw : MW, mw.views ≠ [] → mw.engine.annotations ≠ [] →
       (mw.engine.annotations.map (·.id)).Nodup →
       (syncAllAnnsToPlots mw).engine = mw.engine ∧
       (syncAllAnnsToPlots mw).global_mask_mapping.length = mw.engine.annotations.length ∧
       aMapOneToOne (syncAllAnnsToPlots mw) ∧
       (∀ p ∈ (syncAllAnnsToPlots mw).global_to_annotation_mapping,
          ∃ a ∈ mw.engine.annotations, p.2 = some a.id) ∧
       (∀ p ∈ (syncAllAnnsToPlots mw).global_mask_mapping,
          p.2.map Prod.fst = mw.views.map View.vname)) ∧
    (∀ (mw : MW) (s t : Int), mw.views ≠ [] → mw.current_file_loaded = true →
       ∃ entries,
         lookupA mw.next_global_mask_id (onRangeConfirmed s t mw).global_mask_mapping
           = some entries ∧
         entries.map Prod.fst = mw.views.map View.vname) := by
  constructor
  · intro mw hv ha hnodup
    have hv' : mw.views.isEmpty = false := by
      simpa [List.isEmpty_iff] using hv
    have ha' : mw.engine.annotations.isEmpty = false := by
      simpa [List.isEmpty_iff] using ha
    unfold syncAllAnnsToPlots
    rw [hv', ha']
    simp only [Bool.false_eq_true, if_false]
    set mw0 : MW := { mw with global_mask_mapping := [], global_to_annotation_mapping := [] }
      with hmw0
    obtain ⟨h1, _h2, ⟨gm, hgm, hlen, hper⟩, ⟨am, ham, hmap⟩⟩ :=
      syncAllLoop_spec mw.engine.annotations mw0 (by simp [hmw0]) (by simp [hmw0])
    refine ⟨h1, ?_, ?_, ?_, ?_⟩
    · rw [hgm]
      simp [hmw0, hlen]
    · unfold aMapOneToOne
      rw [ham]
      simp only [hmw0, List.nil_append]
      rw [hmap]
      have hmm : mw.engine.annotations.map (fun a => some a.id)
          = (mw.engine.annotations.map (·.id)).map some := by
        simp [List.map_map]
      rw [hmm]
      exact hnodup.map (Option.some_injective Nat)
    · intro p hp
      rw [ham] at hp
      simp only [hmw0, List.nil_append] at hp
      have hsnd : p.2 ∈ am.map Prod.snd := List.mem_map_of_mem Prod.snd hp
      rw [hmap] at hsnd
      obtain ⟨a, haa, heq⟩ := List.mem_map.mp hsnd
      exact ⟨a, haa, heq.symm⟩
    · intro p hp
      rw [hgm] at hp
      simp only [hmw0, List.nil_append] at hp
      have hp2 := hper p hp
      simpa [hmw0] using hp2
  · intro mw s t hv hf
    have hv' : mw.views.isEmpty = false := by
      simpa [List.isEmpty_iff] using hv
    unfold onRangeConfirmed syncAnnToAllPlots
    rw [if_neg (by simp [hf])]
    dsimp only
    rw [hv']
    simp only [Bool.false_eq_true, if_false]
    refine ⟨(broadcastViews s t mw.next_global_mask_id mw.views mw.next_local_uuid).2.1,
      ?_, ?_⟩
    · exact lookupA_setA_self _ _ _
    · exact (broadcastViews_names s t mw.next_global_mask_id mw.views mw.next_local_uuid).1

/-- C1 witness: the resync consistency at a concrete stale state. -/
theorem C1_mapping_consistency_after_resync_witness :
    (syncAllAnnsToPlots mwResyncState).engine = mwResyncState.engine ∧
    (syncAllAnnsToPlots mwResyncState).global_mask_mapping.length
      = mwResyncState.engine.annotations.length ∧
    aMapOneToOne (syncAllAnnsToPlots mwResyncState) :=
  let h := C1_mapping_consistency_after_resync.1 mwResyncState (by decide) (by decide)
    (by decide)
  ⟨h.1, h.2.1, h.2.2.1⟩

/- ----------------------------------------------------------------- -/
/- Claim C2: drag permitted only on the armed global mask id.         -/
/- ----------------------------------------------------------------- -/

/-- C2: with nothing armed (`selected_mask_id = None`), a drag event on
mask 10 of view 0 — which resolves to global id 1 — still updates the
Annotation Store (annotation 1 moves from (100, 250) to (120, 270)) and
moves view 1's sibling mask, because the permission check in
`MainWindow.on_mask_dragged` has its early return commented out. The
claim (and §4.3 of the spec, which the spec itself declares
authoritative) requires the store and every other view's masks to remain
unchanged on such a drag. -/
theorem C2_unarmed_drag_still_updates_store :
    mwDragState.selected_mask_id = none ∧
    mwDragState.engine.annotations = [⟨1, 100, 250⟩] ∧
    (onMaskDragged 0 (some 10) 120 270 mwDragState).engine.annotations = [⟨1, 120, 270⟩] ∧
    (onMaskDragged 0 (some 10) 120 270 mwDragState).views =
      [⟨0, true, [⟨10, 100, 250, some 1⟩]⟩, ⟨1, true, [⟨11, 120, 270, some 1⟩]⟩] := by
  decide

/- ----------------------------------------------------------------- -/
/- Claim C3: structural validity across updatePosition.               -/
/- ----------------------------------------------------------------- -/

/-- C3 counterexample: `update_annotation_position(1, 5, 5)` on the valid
store {1: (100, 250)} succeeds and stores the zero-width interval (5, 5),
violating the claimed invariant start < end for arguments with start
equal to end. -/
theorem C3_zero_width_updatePosition :
    ((Engine.updatePosition ⟨[⟨1, 100, 250⟩], 2, none⟩ 1 5 5).1 = true ∧
     (Engine.updatePosition ⟨[⟨1, 100, 250⟩], 2, none⟩ 1 5 5).2.annotations = [⟨1, 5, 5⟩]) ∧
    ¬ (∀ a ∈ (Engine.updatePosition ⟨[⟨1, 100, 250⟩], 2, none⟩ 1 5 5).2.annotations,
        a.start < a.stop) := by
  decide

/-- C3 (amended): `update_annotation_position` preserves structural
validity — the id set stays exactly {1..N} and every interval keeps
start < end — for every pair of DISTINCT integer arguments, whether the
update succeeds or fails (unknown id). With start equal to end the code
stores a zero-width interval (see the counterexample), so the invariant
as claimed holds only for distinct arguments. -/
theorem C3_updatePosition_preserves_validity (e : Engine) (aid : Nat) (s t : Int)
    (hst : s ≠ t) (hv : storeValid e) : storeValid ((e.updatePosition aid s t).2) := by
  rcases hv with ⟨hid, hlt⟩
  by_cases hts : t < s
  · have haux := updateFirst_sort_valid aid t s e.annotations (by omega) hid hlt
    by_cases hf : (updateFirst aid t s e.annotations).1
    · simp only [Engine.updatePosition, if_pos hts, hf, if_true]
      exact ⟨haux.1, haux.2⟩
    · simp only [Engine.updatePosition, if_pos hts, hf, if_false]
      exact ⟨hid, hlt⟩
  · have haux := updateFirst_sort_valid aid s t e.annotations (by omega) hid hlt
    by_cases hf : (updateFirst aid s t e.annotations).1
    · simp only [Engine.updatePosition, if_neg hts, hf, if_true]
      exact ⟨haux.1, haux.2⟩
    · simp only [Engine.updatePosition, if_neg hts, hf, if_false]
      exact ⟨hid, hlt⟩

/-- C3 witness: validity preserved by a concrete distinct-argument update. -/
theorem C3_updatePosition_preserves_validity_witness :
    storeValid ((Engine.updatePosition ⟨[⟨1, 100, 250⟩], 2, none⟩ 1 7 20).2) :=
  C3_updatePosition_preserves_validity ⟨[⟨1, 100, 250⟩], 2, none⟩ 1 7 20 (by decide)
    (by unfold storeValid; exact ⟨by decide, by decide⟩)

/- ----------------------------------------------------------------- -/
/- Claim C4: group switching round-trips the snapshot.                -/
/- ----------------------------------------------------------------- -/

/-- C4 counterexample: group 0 holds the width-5 interval (100, 105)
(producible by dragging a mask below the default minimum width).
Switching to group 1 and back restores the snapshot through
`add_annotation(start, end)` with the default `min_width = 10`, which
rejects the narrow interval: the store comes back empty, so the
(start, end) multiset is not round-tripped for all interval widths. -/
theorem C4_narrow_interval_dropped :
    mwTwoGroups.engine.annotations.map pairOf = [(100, 105)] ∧
    (onGroupChanged 0 (onGroupChanged 1 mwTwoGroups)).engine.annotations = [] := by
  decide

/-- C4 (amended): group switching round-trips the (start, end) multiset
of the snapshot provided every stored interval has width at least the
default minimum 10 (ids may be renumbered); intervals dragged below
width 10 are dropped on restore (see the counterexample), because
`on_group_changed` replays them through `add_annotation` with the
default `min_width`. -/
theorem C4_group_switch_roundtrip (mw : MW) (h : Int)
    (hc0 : 0 ≤ mw.current_group_index)
    (hcn : mw.current_group_index < (mw.num_groups : Int))
    (hh0 : 0 ≤ h) (hhn : h < (mw.num_groups : Int)) (hne : h ≠ mw.current_group_index)
    (hw : ∀ a ∈ mw.engine.annotations, 10 ≤ a.stop - a.start) :
    (((onGroupChanged mw.current_group_index (onGroupChanged h mw)).engine.annotations).map
        pairOf).Perm (mw.engine.annotations.map pairOf) := by
  rw [onGroupChanged_eq h mw hh0 hhn hc0]
  rw [onGroupChanged_eq mw.current_group_index _ hc0 (by dsimp only; exact hcn)
    (by dsimp only; exact hh0)]
  dsimp only
  rw [lookupAI_setAI_ne mw.current_group_index h _ _ hne]
  rw [lookupAI_setAI_self]
  have hp := foldl_add_pairs_perm mw.engine.annotations ⟨[], 1, none⟩ hw
  simpa using hp

/-- C4 witness: a width-150 interval survives the round trip. -/
theorem C4_group_switch_roundtrip_witness :
    (((onGroupChanged mwTwoGroupsWide.current_group_index
          (onGroupChanged 1 mwTwoGroupsWide)).engine.annotations).map pairOf).Perm
      (mwTwoGroupsWide.engine.annotations.map pairOf) :=
  C4_group_switch_roundtrip mwTwoGroupsWide 1 (by decide) (by decide) (by decide)
    (by decide) (by decide) (by decide)

/- ----------------------------------------------------------------- -/
/- Claim C5: merged-mode label matrix.                                -/
/- ----------------------------------------------------------------- -/

/-- C5 counterexample: with skipPoints 520 and a single file of raw
length 620 (post-skip length 100), the annotation (600, 700) has
adjusted interval [80, 180) whose end exceeds the data length; the code
skips it entirely, so row 80 holds 0, while the claim's rule (the
spec-modelled `specLabelCell`) puts the annotation's id 1 there. -/
theorem C5_overlong_interval_unlabeled :
    processedLen 520 620 = 100 ∧
    labelCell [⟨1, 600, 700⟩] 520 (processedLen 520 620) 80 = 0 ∧
    specLabelCell [⟨1, 600, 700⟩] 520 80 = 1 := by
  decide

/-- C5 (amended): in merged-mode save, a single annotation labels exactly
the rows of its adjusted interval [start - skip, end - skip) with its id
— all other rows 0 — whenever that interval lies inside the post-skip
data length (start_idx < n, end_idx ≤ n, start_idx < end_idx); an
annotation whose adjusted end exceeds the post-skip length is skipped
entirely and labels nothing (see the counterexample). The concrete
scenario holds with room to spare: skipPoints 520 on a length-1000 file
gives a 480-row matrix whose label column is id 1 exactly on rows
[80, 180). -/
theorem C5_merged_label_matrix :
    (maxLength 520 [1000] = 480 ∧ processedLen 520 1000 = 480 ∧
     (∀ r : Nat, labelCell [⟨1, 600, 700⟩] 520 480 r = if 80 ≤ r ∧ r < 180 then 1 else 0)) ∧
    (∀ (a : Ann) (skip n : Nat),
       startIdx skip a < (n : Int) → stopIdx skip a ≤ (n : Int) →
       startIdx skip a < stopIdx skip a →
       ∀ r : Nat, labelCell [a] skip n r =
         if startIdx skip a ≤ (r : Int) ∧ (r : Int) < stopIdx skip a then a.id else 0) ∧
    (∀ (a : Ann) (skip n : Nat), (n : Int) < stopIdx skip a →
       ∀ r : Nat, labelCell [a] skip n r = 0) := by
  refine ⟨⟨by decide, by decide, ?_⟩, ?_, ?_⟩
  · intro r
    rw [labelCell_one]
    have h1 : startIdx 520 ⟨1, 600, 700⟩ = 80 := by decide
    have h2 : stopIdx 520 ⟨1, 600, 700⟩ = 180 := by decide
    rw [h1, h2]
    split_ifs <;> first | rfl | omega
  · intro a skip n h1 h2 h3 r
    rw [labelCell_one]
    by_cases h : startIdx skip a ≤ (r : Int) ∧ (r : Int) < stopIdx skip a
    · rw [if_pos ⟨h1, h2, h3, h.1, h.2⟩, if_pos h]
    · rw [if_neg h, if_neg (by tauto)]
  · intro a skip n h r
    rw [labelCell_one, if_neg (by omega)]

/-- C5 witness: the in-range labeling rule at a concrete annotation. -/
theorem C5_merged_label_matrix_witness :
    labelCell [⟨2, 30, 40⟩] 0 50 35 =
      if startIdx 0 ⟨2, 30, 40⟩ ≤ (35 : Int) ∧ (35 : Int) < stopIdx 0 ⟨2, 30, 40⟩
      then 2 else 0 :=
  C5_merged_label_matrix.2.1 ⟨2, 30, 40⟩ 0 50 (by decide) (by decide) (by decide) 35

/- ----------------------------------------------------------------- -/
/- Claim C6: overwrite confirmation in both save modes.               -/
/- ----------------------------------------------------------------- -/

/-- C6: merged mode honors the conflict protocol — with `data.npy`
already in the target directory it writes nothing and emits
`file_exists_confirm` — but separate mode ignores the filesystem
entirely: with `data.npy` already present in the per-file directory it
overwrites all three artifacts and emits no confirmation, contradicting
the claim that both modes signal and return without writing. -/
theorem C6_separate_save_overwrites_without_confirm :
    (fsSep.hasArtifact "a" "data.npy" = true ∧
     saveSeparateData fsSep [(700, "a")] [⟨1, 600, 700⟩] 520 =
       ⟨true, [("a", "data.npy"), ("a", "data_label.npy"), ("a", "data_timestamp.npy")], []⟩) ∧
    (fsMerged.hasArtifact "datagroup1masks1" "data.npy" = true ∧
     saveMergedData fsMerged false [700] [⟨1, 600, 700⟩] 520 0 =
       ⟨false, [], ["datagroup1masks1"]⟩) := by
  constructor
  · exact ⟨rfl, rfl⟩
  · exact ⟨rfl, rfl⟩

/- ----------------------------------------------------------------- -/
/- Claim C7: dense renumbering scenario.                              -/
/- ----------------------------------------------------------------- -/

/-- C7: on an empty store with minWidth 10, `add(100, 250)` returns id 1;
`add(50, 80)` renumbers the store to {1: (50, 80), 2: (100, 250)};
`remove(1)` succeeds and the survivor is renumbered to id 1 with start
100. In general, after every successful `add` the ids are dense 1..N in
start order, and after every successful `remove` on a start-sorted store
they are again dense 1..N in start order. -/
theorem C7_dense_renumbering_scenario :
    ((Engine.add ⟨[], 1, none⟩ 100 250 10).1 = some 1 ∧
     (Engine.add ⟨[], 1, none⟩ 100 250 10).2.annotations = [⟨1, 100, 250⟩] ∧
     ((Engine.add ⟨[], 1, none⟩ 100 250 10).2.add 50 80 10).2.annotations =
       [⟨1, 50, 80⟩, ⟨2, 100, 250⟩] ∧
     (((Engine.add ⟨[], 1, none⟩ 100 250 10).2.add 50 80 10).2.removeAnn 1).1 = true ∧
     (((Engine.add ⟨[], 1, none⟩ 100 250 10).2.add 50 80 10).2.removeAnn 1).2.annotations =
       [⟨1, 100, 250⟩]) ∧
    (∀ (e : Engine) (s t mw : Int), (e.add s t mw).1 ≠ none →
       denseIds ((e.add s t mw).2).annotations ∧ sortedByStart ((e.add s t mw).2).annotations) ∧
    (∀ (e : Engine) (aid : Nat), sortedByStart e.annotations → (e.removeAnn aid).1 = true →
       denseIds ((e.removeAnn aid).2).annotations ∧
       sortedByStart ((e.removeAnn aid).2).annotations) :=
  ⟨by decide, add_dense_sorted, remove_dense_sorted⟩

/-- C7 witness: density and ordering after a concrete successful add. -/
theorem C7_dense_renumbering_scenario_witness :
    denseIds ((Engine.add ⟨[⟨1, 40, 60⟩], 2, none⟩ 5 30 10).2).annotations ∧
    sortedByStart ((Engine.add ⟨[⟨1, 40, 60⟩], 2, none⟩ 5 30 10).2).annotations :=
  C7_dense_renumbering_scenario.2.1 ⟨[⟨1, 40, 60⟩], 2, none⟩ 5 30 10 (by decide)

/- ----------------------------------------------------------------- -/
/- Claim C8: viewport navigation formulas.                            -/
/- ----------------------------------------------------------------- -/

/-- C8 counterexample: the claim's general clause says zoom-in computes
window_size = max(100, floor(ws * 0.7)) and zoom-out
min(data_length, floor(ws * 1.4)), but the code computes the floats
`int(ws * 0.7)` / `int(ws * 1.4)` in binary64, which fall one short of
the exact floor at reachable sizes: at window size 180 (typable into the
[100, 10000] size spin box), zoom-in yields 125 while the claimed
formula gives max(100, floor(180 * 7 / 10)) = 126; at window size 700
(the claim's own zoom-in result from 1000), zoom-out yields 979 while
the claimed formula gives min(5000, floor(700 * 14 / 10)) = 980. -/
theorem C8_float_floor_divergence :
    ((zoomIn ⟨5000, 180, 0⟩).window_size = 125 ∧
     max 100 ((180 : Int) * 7 / 10) = 126) ∧
    ((zoomOut ⟨5000, 700, 0⟩).window_size = 979 ∧
     min (5000 : Int) ((700 : Int) * 14 / 10) = 980) := by
  decide

/-- C8 (amended): the concrete scenario holds — with data_length 5000 and
window_size 1000, `center()` yields window_start 2000, and a zoom-in
sets window_size to 700 (the binary64 product 1000 * 0.7 rounds to
exactly 700.0, agreeing with the spec's floor there) and window_start to
2150, within the clamp bound 5000 - 700 = 4300. In general, zoom-in sets
window_size = max(100, int(ws * 0.7)) and zoom-out
window_size = min(data_length, int(ws * 1.4)) with the float products
computed in binary64 (`pyIntMul07`/`pyIntMul14`), which at some
reachable sizes is one below the claim's exact floor (see the
counterexample); both reposition the start by half the size difference —
keeping the window midpoint fixed up to integer rounding (the doubled
midpoint moves by at most 1) — and reclamp window_start into
[0, data_length - window_size]. -/
theorem C8_viewport_navigation :
    (centerDataInWindow ⟨5000, 1000, 0⟩ = ⟨5000, 1000, 2000⟩ ∧
     zoomIn ⟨5000, 1000, 2000⟩ = ⟨5000, 700, 2150⟩ ∧
     (2150 : Int) ≤ 5000 - 700) ∧
    (∀ v : Viewport, 0 < v.data_length → 0 ≤ v.window_start →
       v.window_start ≤ max 0 ((v.data_length : Int) - v.window_size) →
       (zoomIn v).window_size = max 100 (pyIntMul07 v.window_size) ∧
       (zoomIn v).data_length = v.data_length ∧
       0 ≤ (zoomIn v).window_start ∧
       (zoomIn v).window_start ≤ max 0 ((v.data_length : Int) - (zoomIn v).window_size) ∧
       (max 100 (pyIntMul07 v.window_size) ≠ v.window_size →
         (zoomIn v).window_start =
           min (max 0 (v.window_start + (v.window_size - max 100 (pyIntMul07 v.window_size)) / 2))
               (max 0 ((v.data_length : Int) - max 100 (pyIntMul07 v.window_size))) ∧
         2 * v.window_start + v.window_size - 1 ≤
           2 * (v.window_start + (v.window_size - max 100 (pyIntMul07 v.window_size)) / 2)
             + max 100 (pyIntMul07 v.window_size) ∧
         2 * (v.window_start + (v.window_size - max 100 (pyIntMul07 v.window_size)) / 2)
             + max 100 (pyIntMul07 v.window_size) ≤ 2 * v.window_start + v.window_size + 1)) ∧
    (∀ v : Viewport, 0 < v.data_length → 0 ≤ v.window_start →
       v.window_start ≤ max 0 ((v.data_length : Int) - v.window_size) →
       (zoomOut v).window_size = min (v.data_length : Int) (pyIntMul14 v.window_size) ∧
       (zoomOut v).data_length = v.data_length ∧
       0 ≤ (zoomOut v).window_start ∧
       (zoomOut v).window_start ≤ max 0 ((v.data_length : Int) - (zoomOut v).window_size) ∧
       (min (v.data_length : Int) (pyIntMul14 v.window_size) ≠ v.window_size →
         (zoomOut v).window_start =
           min (max 0 (v.window_start -
                 (min (v.data_length : Int) (pyIntMul14 v.window_size) - v.window_size) / 2))
               (max 0 ((v.data_length : Int)
                 - min (v.data_length : Int) (pyIntMul14 v.window_size))) ∧
         2 * v.window_start + v.window_size - 1 ≤
           2 * (v.window_start -
                 (min (v.data_length : Int) (pyIntMul14 v.window_size) - v.window_size) / 2)
             + min (v.data_length : Int) (pyIntMul14 v.window_size) ∧
         2 * (v.window_start -
               (min (v.data_length : Int) (pyIntMul14 v.window_size) - v.window_size) / 2)
             + min (v.data_length : Int) (pyIntMul14 v.window_size)
           ≤ 2 * v.window_start + v.window_size + 1)) :=
  ⟨by decide, zoomIn_general, zoomOut_general⟩

/-- C8 witness: the zoom-in behavior instantiated at the scenario state. -/
theorem C8_viewport_navigation_witness :
    (zoomIn ⟨5000, 1000, 2000⟩).window_size = max 100 (pyIntMul07 1000) ∧
    (zoomIn ⟨5000, 1000, 2000⟩).data_length = 5000 ∧
    0 ≤ (zoomIn ⟨5000, 1000, 2000⟩).window_start ∧
    (zoomIn ⟨5000, 1000, 2000⟩).window_start ≤
      max 0 ((5000 : Int) - (zoomIn ⟨5000, 1000, 2000⟩).window_size) ∧
    (max 100 (pyIntMul07 1000) ≠ 1000 →
      (zoomIn ⟨5000, 1000, 2000⟩).window_start =
        min (max 0 (2000 + (1000 - max 100 (pyIntMul07 1000)) / 2))
            (max 0 ((5000 : Int) - max 100 (pyIntMul07 1000))) ∧
      2 * 2000 + 1000 - 1 ≤
        2 * (2000 + (1000 - max 100 (pyIntMul07 1000)) / 2) + max 100 (pyIntMul07 1000) ∧
      2 * (2000 + (1000 - max 100 (pyIntMul07 1000)) / 2) + max 100 (pyIntMul07 1000) ≤
        2 * 2000 + 1000 + 1) :=
  C8_viewport_navigation.2.1 ⟨5000, 1000, 2000⟩ (by decide) (by decide) (by decide)

/- ----------------------------------------------------------------- -/
/- Claim C9: dwell-based disarm never fires after re-entry.           -/
/- ----------------------------------------------------------------- -/

/-- C9: the claim — and spec sections 4.3, 5 and 8 ("any re-entry into a
mask or view before it fires cancels it"; "a fired callback for a
since-superseded selection is a no-op, never a stale disarm";
"re-hovering id 1 before the dwell elapses must never disarm") — require
re-entry onto a mask to cancel the pending dwell so that only an
uncancelled firing disarms. The code keeps one `clear_selection_timer`
per plot widget and `check_blank_area_hover` stops only
`self.clear_selection_timer`, so on the reachable two-view trace below
(global id 1 armed, masks mirrored in views 0 and 1): hovering empty
space in view 0 starts view 0's dwell at 1000 ms; re-hovering the armed
mask in view 1 before it fires stops only view 1's (idle) timer and
leaves view 0's running; view 0's timer then fires and disarms the
still-re-entered selection. The spec's normative wording makes the
missing cross-widget cancellation a code bug, not a spec error. -/
theorem C9_stale_crossview_timer_disarms :
    (selStep selTwoViews (SelEvent.moveOverEmpty 0)).viewStates
      = [⟨0, true, 1000, true⟩, ⟨1, false, 0, false⟩] ∧
    (selStep (selStep selTwoViews (SelEvent.moveOverEmpty 0))
        (SelEvent.moveOverMask 1 1)).selected_mask_id = some 1 ∧
    (selStep (selStep selTwoViews (SelEvent.moveOverEmpty 0))
        (SelEvent.moveOverMask 1 1)).viewStates
      = [⟨0, true, 1000, true⟩, ⟨1, false, 0, false⟩] ∧
    (selStep (selStep (selStep selTwoViews (SelEvent.moveOverEmpty 0))
        (SelEvent.moveOverMask 1 1)) (SelEvent.timerFire 0)).selected_mask_id = none := by
  decide

/- ----------------------------------------------------------------- -/
/- Claim C10: a failed draft commit discards the draft.               -/
/- ----------------------------------------------------------------- -/

/-- C10: for every draft (s, t) with t - s below min_width,
`finish_annotation` returns None, leaves the annotation list and the id
counter unchanged, and sets the in-progress draft to None, so the draft
never survives a failed commit. -/
theorem C10_failed_commit_discards_draft (e : Engine) (s t min_width : Int)
    (htemp : e.temp_ann = some (s, t)) (hw : t - s < min_width) :
    (e.finish min_width).1 = none ∧
    (e.finish min_width).2.annotations = e.annotations ∧
    (e.finish min_width).2.next_id = e.next_id ∧
    (e.finish min_width).2.temp_ann = none := by
  simp [Engine.finish, htemp, hw]

/-- C10 witness: a width-4 draft against min_width 10. -/
theorem C10_failed_commit_discards_draft_witness :
    (Engine.finish ⟨[], 1, some (5, 9)⟩ 10).1 = none ∧
    (Engine.finish ⟨[], 1, some (5, 9)⟩ 10).2.annotations = [] ∧
    (Engine.finish ⟨[], 1, some (5, 9)⟩ 10).2.next_id = 1 ∧
    (Engine.finish ⟨[], 1, some (5, 9)⟩ 10).2.temp_ann = none :=
  C10_failed_commit_discards_draft ⟨[], 1, some (5, 9)⟩ 5 9 10 rfl (by decide)
